import Mathlib

/-!
# Shallow embedding of the market-analysis engine

This file embeds, in Lean 4, the parts of the repository that the
verified claims are about:

* `analysis/confluence_engine.py` — signal model, weighting, score
  aggregation, result normalisation and merging;
* `mt5/market_data.py` — the per-(symbol, timeframe) candle cache and its
  invalidation operations (the *effective* definitions: the class body
  defines `get_candles`, `get_cached_data` and `clear_cache` twice, and in
  Python the second definition of each shadows the first);
* `analysis/multi_timeframe_orchestrator.py` — per-timeframe bias and the
  weighted aggregation across timeframes;
* `analysis/shared/indicators.py` — the indicator primitives;
* `analysis/candlestick_context.py` — context-aware candlestick pattern
  evaluation;
* `analysis/forex/analyzer.py` — the setup-status / direction heuristic.

Modelling conventions:

* Python floats are modelled as exact rationals (`ℚ`).  Results that hold
  exactly over `ℚ` hold over floats up to rounding, which is the reading
  the spec itself takes (its `ε ≤ 0.01` slack).
* `numpy`/`pandas` NaN is modelled as `Option.none`; a pandas rolling
  window that is not yet full, or that contains a NaN, produces `none`,
  exactly as `.rolling(w).mean()` does.
* Fallible operations (Python exceptions: `IndexError` from indexing an
  empty array, `statistics.StatisticsError` from `mean([])`,
  `ZeroDivisionError`) are modelled with `Except String`.
* Division by zero on numpy *float arrays* does not raise (it yields
  `inf`/`nan` with a warning); where such a division can occur we use
  total `ℚ` division, whose junk value at `0` plays the role of `inf`.
  No claim below depends on the value produced at such a point.
* Python's stable sorts (`list.sort`, `sorted`) are modelled by a stable
  insertion sort; all stable sorts by the same key compute the same list.
-/

/-- Clamp to `[0, 100]`, i.e. Python's `max(0.0, min(100.0, x))`. -/
def clamp100 (x : ℚ) : ℚ := max 0 (min 100 x)

/-- `statistics.mean` / `np.mean` on a list, total version (junk on `[]`).
Used only where the source guards the list against being empty. -/
def listMean (l : List ℚ) : ℚ := l.sum / (l.length : ℚ)

/-- `statistics.mean`, fallible version: `statistics.mean([])` raises
`StatisticsError`. -/
def listMeanE (l : List ℚ) : Except String ℚ :=
  if l = [] then .error "mean requires at least one data point"
  else .ok (l.sum / (l.length : ℚ))

/-- Checked division: Python `a / b` on scalars raises
`ZeroDivisionError` when `b == 0`. -/
def divE (a b : ℚ) : Except String ℚ :=
  if b = 0 then .error "division by zero" else .ok (a / b)

/-- Stable insertion of a keyed pair into a descending-sorted list; the
incoming element goes in front of strictly smaller keys and behind equal
keys already present. -/
def insFactorDesc (x : String × ℚ) : List (String × ℚ) → List (String × ℚ)
  | [] => [x]
  | y :: ys => if y.2 ≤ x.2 then x :: y :: ys else y :: insFactorDesc x ys

/-- Python's stable `list.sort(key=lambda t: t[1], reverse=True)` on
`(source, score)` pairs, as a stable insertion sort. -/
def sortFactorsDesc : List (String × ℚ) → List (String × ℚ)
  | [] => []
  | x :: xs => insFactorDesc x (sortFactorsDesc xs)

namespace ConfluenceEngineMod

/-- `SignalType` (confluence_engine.py): signal classification types. -/
inductive SignalType where
  | BULLISH
  | BEARISH
  | NEUTRAL
deriving DecidableEq, Repr

/-- `SignalCategory` (confluence_engine.py): signal source categories. -/
inductive SignalCategory where
  | STRUCTURE
  | TREND
  | MOMENTUM
  | VOLATILITY
  | VOLUME
  | SESSIONS
  | LIQUIDITY
  | ORDER_BLOCKS
  | FAIR_VALUE_GAPS
  | CONFLUENCE
  | MULTI_TIMEFRAME
  | CANDLESTICK
  | SYNTHETIC_VOLATILITY
  | SYNTHETIC_REGIME
  | SESSION_BEHAVIOR
deriving DecidableEq, Repr

/-- The default weight attached to each category (the enum member value
in the Python source). -/
def SignalCategory.value : SignalCategory → ℚ
  | .STRUCTURE => 1.0
  | .TREND => 0.95
  | .MOMENTUM => 0.90
  | .VOLATILITY => 0.85
  | .VOLUME => 0.80
  | .SESSIONS => 0.75
  | .LIQUIDITY => 0.90
  | .ORDER_BLOCKS => 0.95
  | .FAIR_VALUE_GAPS => 0.88
  | .CONFLUENCE => 0.92
  | .MULTI_TIMEFRAME => 0.98
  | .CANDLESTICK => 0.40
  | .SYNTHETIC_VOLATILITY => 0.85
  | .SYNTHETIC_REGIME => 0.88
  | .SESSION_BEHAVIOR => 0.80

/-- `Signal` dataclass fields. -/
structure Signal where
  category : SignalCategory
  signal_type : SignalType
  confidence : ℚ
  weight : ℚ
  source : String
  description : String
deriving DecidableEq, Repr

/-- `Signal.__post_init__`: clamp confidence to `[0, 100]`, weight to
`[0, ∞)`.  Every Python `Signal` goes through this on construction. -/
def mkSignal (category : SignalCategory) (signal_type : SignalType)
    (confidence weight : ℚ) (source description : String) : Signal :=
  { category := category
    signal_type := signal_type
    confidence := max 0 (min 100 confidence)
    weight := max 0 weight
    source := source
    description := description }

/-- `Signal.get_effective_weight`: category weight times custom weight. -/
def Signal.get_effective_weight (s : Signal) : ℚ :=
  s.category.value * s.weight

/-- `Signal.get_weighted_signal`: `base_value` is `100.0` for `BULLISH`
and `-100.0` otherwise (note: also for `NEUTRAL`), scaled by
`confidence / 100` and the effective weight. -/
def Signal.get_weighted_signal (s : Signal) : ℚ :=
  let base_value : ℚ := if s.signal_type = SignalType.BULLISH then 100.0 else -100.0
  let confidence_factor := s.confidence / 100.0
  let weight_factor := s.get_effective_weight
  base_value * confidence_factor * weight_factor

/-- `ConfluenceResult` dataclass fields. -/
structure ConfluenceResult where
  bullish_score : ℚ
  bearish_score : ℚ
  neutral_probability : ℚ
  confidence_percentage : ℚ
  market_bias : String
  signal_count : ℕ
  bullish_signals : ℕ
  bearish_signals : ℕ
  neutral_signals : ℕ
  top_factors : List (String × ℚ)
  weighted_signals : List ℚ
deriving DecidableEq, Repr

/-- `ConfluenceResult.__post_init__`: clamp the four percentages to
`[0, 100]`, then — when the three scores have positive total — rescale
the three scores by `100 / total`.  (`weighted_signals` defaults to `[]`
in the dataclass; callers that omit it pass `[]` here.) -/
def mkConfluenceResult (bullish_score bearish_score neutral_probability
    confidence_percentage : ℚ) (market_bias : String)
    (signal_count bullish_signals bearish_signals neutral_signals : ℕ)
    (top_factors : List (String × ℚ)) (weighted_signals : List ℚ) :
    ConfluenceResult :=
  let b := clamp100 bullish_score
  let be := clamp100 bearish_score
  let n := clamp100 neutral_probability
  let c := clamp100 confidence_percentage
  let total := b + be + n
  let factor : ℚ := if 0 < total then 100 / total else 1
  { bullish_score := if 0 < total then b * factor else b
    bearish_score := if 0 < total then be * factor else be
    neutral_probability := if 0 < total then n * factor else n
    confidence_percentage := c
    market_bias := market_bias
    signal_count := signal_count
    bullish_signals := bullish_signals
    bearish_signals := bearish_signals
    neutral_signals := neutral_signals
    top_factors := top_factors
    weighted_signals := weighted_signals }

/-- The low-confidence filter at the top of
`ConfluenceEngine.calculate_confluence`:
`[s for s in signals if s.confidence >= min_confidence]`. -/
def validSignals (signals : List Signal) (min_confidence : ℚ) : List Signal :=
  signals.filter (fun s => min_confidence ≤ s.confidence)

/-- `ConfluenceEngine._compute_score`: mean of
`confidence * effective_weight` over the given signals, `0.0` on `[]`. -/
def compute_score (signals : List Signal) : ℚ :=
  if signals = [] then 0
  else listMean (signals.map (fun s => s.confidence * s.get_effective_weight))

/-- `ConfluenceEngine._compute_neutral`. -/
def compute_neutral (neutral_signals : List Signal) (total_signals : ℕ) : ℚ :=
  if total_signals = 0 then 100
  else min 50 (((neutral_signals.length : ℚ) / (total_signals : ℚ)) * 50)

/-- `ConfluenceEngine._compute_confidence`: average confidence scaled by
signal-count and category-diversity factors, capped at 100. -/
def compute_confidence (signals : List Signal) : ℚ :=
  if signals = [] then 0
  else
    let avg_confidence := listMean (signals.map (·.confidence))
    let signal_count_factor := min 1 ((signals.length : ℚ) / 20)
    let categories := (signals.map (·.category)).dedup
    let diversity_factor := min 1 ((categories.length : ℚ) / 8)
    min 100 (avg_confidence * (0.5 + 0.25 * signal_count_factor + 0.25 * diversity_factor))

/-- `ConfluenceEngine._get_top_factors`: score each signal by
`confidence * effective_weight`, sort descending (stably), keep `top_n`. -/
def get_top_factors (signals : List Signal) (top_n : ℕ := 5) :
    List (String × ℚ) :=
  (sortFactorsDesc (signals.map
    (fun s => (s.source, s.confidence * s.get_effective_weight)))).take top_n

/-- `ConfluenceEngine._determine_bias`. -/
def determine_bias (bullish bearish confidence : ℚ) : String :=
  if confidence < 30 then "Neutral"
  else
    let diff := bullish - bearish
    let abs_diff := |diff|
    if abs_diff < 10 then "Neutral"
    else if abs_diff < 25 then
      if bearish < bullish then "Bullish" else "Bearish"
    else
      if bearish < bullish then "Strong Bullish" else "Strong Bearish"

/-- `ConfluenceEngine.calculate_confluence` (pure model). -/
def calculate_confluence (signals : List Signal)
    (min_confidence : ℚ := 40.0) : ConfluenceResult :=
  let valid := validSignals signals min_confidence
  if valid = [] then
    mkConfluenceResult 0 0 100 0 "Neutral" 0 0 0 0 [] []
  else
    let weighted_signals := valid.map (·.get_weighted_signal)
    let bullish_signals := valid.filter (fun s => s.signal_type = SignalType.BULLISH)
    let bearish_signals := valid.filter (fun s => s.signal_type = SignalType.BEARISH)
    let neutral_signals := valid.filter (fun s => s.signal_type = SignalType.NEUTRAL)
    let bullish_score := compute_score bullish_signals
    let bearish_score := compute_score bearish_signals
    let neutral_probability := compute_neutral neutral_signals valid.length
    let confidence := compute_confidence valid
    let top_factors := get_top_factors valid 5
    let market_bias := determine_bias bullish_score bearish_score confidence
    mkConfluenceResult bullish_score bearish_score neutral_probability
      confidence market_bias valid.length bullish_signals.length
      bearish_signals.length neutral_signals.length top_factors
      weighted_signals

/-- `ConfluenceEngine.merge_confluences`: raises on an empty input list
or a weight-length mismatch; otherwise normalises the weights, averages
the four percentages, re-sorts and truncates the pooled top factors,
recomputes the bias from the averaged scores, sums the counts, and
constructs a fresh `ConfluenceResult` (so `weighted_signals` takes its
dataclass default `[]`).  The weight normalisation `w / total_weight`
is unguarded in the source; with the default weights the total is the
(positive) length, which is the only use in this development. -/
def merge_confluences (confluences : List ConfluenceResult)
    (weights : Option (List ℚ) := none) : Except String ConfluenceResult :=
  if confluences = [] then .error "No confluences to merge"
  else
    let ws := weights.getD (List.replicate confluences.length 1)
    if ws.length ≠ confluences.length then
      .error "Weights must match confluences length"
    else
      let total_weight := ws.sum
      let ws := ws.map (· / total_weight)
      let bullish_avg := (List.zipWith (fun c w => c.bullish_score * w) confluences ws).sum
      let bearish_avg := (List.zipWith (fun c w => c.bearish_score * w) confluences ws).sum
      let neutral_avg := (List.zipWith (fun c w => c.neutral_probability * w) confluences ws).sum
      let confidence_avg := (List.zipWith (fun c w => c.confidence_percentage * w) confluences ws).sum
      let all_factors := (confluences.map (·.top_factors)).flatten
      let top_factors := (sortFactorsDesc all_factors).take 5
      let market_bias := determine_bias bullish_avg bearish_avg confidence_avg
      let total_signals := (confluences.map (·.signal_count)).sum
      let total_bullish := (confluences.map (·.bullish_signals)).sum
      let total_bearish := (confluences.map (·.bearish_signals)).sum
      let total_neutral := (confluences.map (·.neutral_signals)).sum
      .ok (mkConfluenceResult bullish_avg bearish_avg neutral_avg
        confidence_avg market_bias total_signals total_bullish
        total_bearish total_neutral top_factors [])

/-- `_compute_score` with its internal `statistics.mean` made explicit as
a fallible call (it raises on an empty list). -/
def compute_scoreE (signals : List Signal) : Except String ℚ :=
  if signals = [] then .ok 0
  else listMeanE (signals.map (fun s => s.confidence * s.get_effective_weight))

/-- `_compute_neutral` with its division made explicit as fallible. -/
def compute_neutralE (neutral_signals : List Signal) (total_signals : ℕ) :
    Except String ℚ :=
  if total_signals = 0 then .ok 100
  else do
    let frac ← divE (neutral_signals.length : ℚ) (total_signals : ℚ)
    .ok (min 50 (frac * 50))

/-- `_compute_confidence` with `statistics.mean` and the two factor
divisions (`len(signals) / 20.0`, `len(categories) / 8.0`) made explicit
as fallible operations. -/
def compute_confidenceE (signals : List Signal) : Except String ℚ :=
  if signals = [] then .ok 0
  else do
    let avg_confidence ← listMeanE (signals.map (·.confidence))
    let count_ratio ← divE (signals.length : ℚ) 20
    let diversity_ratio ← divE (((signals.map (·.category)).dedup.length : ℚ)) 8
    .ok (min 100 (avg_confidence *
      (0.5 + 0.25 * min 1 count_ratio + 0.25 * min 1 diversity_ratio)))

/-- `ConfluenceResult.__post_init__` with the normalisation division
`100.0 / total` made explicit as fallible (it sits under the
`total > 0` guard in the source). -/
def mkConfluenceResultE (bullish_score bearish_score neutral_probability
    confidence_percentage : ℚ) (market_bias : String)
    (signal_count bullish_signals bearish_signals neutral_signals : ℕ)
    (top_factors : List (String × ℚ)) (weighted_signals : List ℚ) :
    Except String ConfluenceResult :=
  let b := clamp100 bullish_score
  let be := clamp100 bearish_score
  let n := clamp100 neutral_probability
  let c := clamp100 confidence_percentage
  let total := b + be + n
  if 0 < total then do
    let factor ← divE 100 total
    .ok { bullish_score := b * factor
          bearish_score := be * factor
          neutral_probability := n * factor
          confidence_percentage := c
          market_bias := market_bias
          signal_count := signal_count
          bullish_signals := bullish_signals
          bearish_signals := bearish_signals
          neutral_signals := neutral_signals
          top_factors := top_factors
          weighted_signals := weighted_signals }
  else
    .ok { bullish_score := b
          bearish_score := be
          neutral_probability := n
          confidence_percentage := c
          market_bias := market_bias
          signal_count := signal_count
          bullish_signals := bullish_signals
          bearish_signals := bearish_signals
          neutral_signals := neutral_signals
          top_factors := top_factors
          weighted_signals := weighted_signals }

/-- `ConfluenceEngine.calculate_confluence` with every fallible internal
operation (means of possibly-empty lists, divisions) threaded through
`Except`, so that `.ok` states that the Python call returns normally.
(The `/ 100.0` inside `get_weighted_signal` and the `* 50.0` scalings
have literal non-zero denominators and cannot raise.) -/
def calculate_confluenceE (signals : List Signal)
    (min_confidence : ℚ := 40.0) : Except String ConfluenceResult :=
  let valid := validSignals signals min_confidence
  if valid = [] then
    mkConfluenceResultE 0 0 100 0 "Neutral" 0 0 0 0 [] []
  else do
    let weighted_signals := valid.map (·.get_weighted_signal)
    let bullish_signals := valid.filter (fun s => s.signal_type = SignalType.BULLISH)
    let bearish_signals := valid.filter (fun s => s.signal_type = SignalType.BEARISH)
    let neutral_signals := valid.filter (fun s => s.signal_type = SignalType.NEUTRAL)
    let bullish_score ← compute_scoreE bullish_signals
    let bearish_score ← compute_scoreE bearish_signals
    let neutral_probability ← compute_neutralE neutral_signals valid.length
    let confidence ← compute_confidenceE valid
    let top_factors := get_top_factors valid 5
    let market_bias := determine_bias bullish_score bearish_score confidence
    mkConfluenceResultE bullish_score bearish_score neutral_probability
      confidence market_bias valid.length bullish_signals.length
      bearish_signals.length neutral_signals.length top_factors
      weighted_signals

end ConfluenceEngineMod

namespace MarketDataMod

/-- One row of the OHLCV dataframe built by
`MarketDataManager.get_candles` (columns `Timestamp`, `Open`, `High`,
`Low`, `Close`, `Volume`, `RealVolume`, `Spread`).  Timestamps are
rationals measured in minutes. -/
structure Candle where
  timestamp : ℚ
  copen : ℚ
  chigh : ℚ
  clow : ℚ
  cclose : ℚ
  volume : ℚ
  realVolume : ℚ
  spread : ℚ
deriving DecidableEq, Repr

/-- A cached dataframe: the candle window for one (symbol, timeframe). -/
abbrev Df := List Candle

/-- Stable insertion sort of candles by ascending timestamp, modelling
`df.sort_values('Timestamp')`. -/
def insByTime (x : Candle) : List Candle → List Candle
  | [] => [x]
  | y :: ys => if x.timestamp ≤ y.timestamp then x :: y :: ys
               else y :: insByTime x ys

/-- `df.sort_values('Timestamp').reset_index(drop=True)`. -/
def sortByTimestamp : List Candle → List Candle
  | [] => []
  | x :: xs => insByTime x (sortByTimestamp xs)

/-- An inner dict `{timeframe: df}` as an association list with
dict semantics (unique keys, insertion order). -/
abbrev TfDict := List (String × Df)

/-- The manager's `_data_cache : {symbol: {timeframe: df}}`. -/
abbrev CacheState := List (String × TfDict)

/-- Dict lookup (`d[k]` / `k in d`). -/
def dictGet {β : Type} (d : List (String × β)) (k : String) : Option β :=
  match d with
  | [] => none
  | (k', v) :: rest => if k' = k then some v else dictGet rest k

/-- Dict update `d[k] = v`: overwrite in place if the key is present,
append otherwise. -/
def dictPut {β : Type} (d : List (String × β)) (k : String) (v : β) :
    List (String × β) :=
  match d with
  | [] => [(k, v)]
  | (k', v') :: rest =>
      if k' = k then (k', v) :: rest else (k', v') :: dictPut rest k v

/-- Dict deletion `del d[k]` (no-op when the key is absent, matching the
`if k in d: del d[k]` idiom of the source). -/
def dictDel {β : Type} (d : List (String × β)) (k : String) :
    List (String × β) :=
  match d with
  | [] => []
  | (k', v') :: rest => if k' = k then rest else (k', v') :: dictDel rest k

/-- `TIMEFRAME_MAP` keys: the valid timeframe strings. -/
def validTimeframes : List String :=
  ["M1", "M5", "M15", "M30", "H1", "H4", "D1", "W1", "MN1"]

/-- `TIMEFRAME_MINUTES`: minutes per bar, used by the (shadowed)
staleness check. -/
def timeframeMinutes (tf : String) : ℚ :=
  if tf = "M1" then 1 else if tf = "M5" then 5 else if tf = "M15" then 15
  else if tf = "M30" then 30 else if tf = "H1" then 60
  else if tf = "H4" then 240 else if tf = "D1" then 1440
  else if tf = "W1" then 10080 else if tf = "MN1" then 43200 else 60

/-- The outcome of one `get_candles` call: returned dataframe, cache
state afterwards, and the list of `count` arguments passed to the
bridge's `copy_rates_from_pos` during the call (empty = no fetch). -/
structure FetchOutcome where
  result : Option Df
  cache : CacheState
  requests : List ℕ
deriving Repr

/-- The *effective* `MarketDataManager.get_candles` (the second
definition in the class body, lines 348-400, which shadows the caching
variant at lines 63-132): validate the timeframe, always call the bridge
for `count` bars, sort the rows by timestamp, store the dataframe in the
cache and return it.  The terminal bridge is abstracted as a function
from (symbol, timeframe, start position, count) to an optional rates
list. -/
def get_candles (bridge : String → String → ℕ → ℕ → Option (List Candle))
    (st : CacheState) (symbol timeframe : String) (count : ℕ := 500) :
    FetchOutcome :=
  if timeframe ∉ validTimeframes then
    { result := none, cache := st, requests := [] }
  else
    match bridge symbol timeframe 0 count with
    | none => { result := none, cache := st, requests := [count] }
    | some rates =>
        if rates = [] then { result := none, cache := st, requests := [count] }
        else
          let df := sortByTimestamp rates
          let inner := (dictGet st symbol).getD []
          { result := some df
            cache := dictPut st symbol (dictPut inner timeframe df)
            requests := [count] }

/-- The *effective* `MarketDataManager.get_cached_data` (second
definition, lines 451-464): nested dict lookup (the `.copy()` is
identity in a value model). -/
def get_cached_data (st : CacheState) (symbol timeframe : String) :
    Option Df :=
  (dictGet st symbol).bind (fun inner => dictGet inner timeframe)

/-- The *effective* `MarketDataManager.clear_cache` (second definition,
lines 466-479).  `if symbol:` is Python truthiness: both `None` and the
empty string select the clear-everything branch. -/
def clear_cache (st : CacheState) (symbol : Option String := none) :
    CacheState :=
  match symbol with
  | some s => if s = "" then [] else dictDel st s
  | none => []

/-- `MarketDataManager.invalidate_symbol_cache` (defined once, lines
240-244): `if symbol in self._data_cache: del self._data_cache[symbol]`. -/
def invalidate_symbol_cache (st : CacheState) (symbol : String) :
    CacheState :=
  dictDel st symbol

/-- `CacheEntry.is_stale` from the shadowed caching variant: the entry is
stale when the latest candle is older than `1.5 ×` the timeframe's
minutes.  Freshness of a cached window (used to state claim C1):
the window is non-empty and its last candle is within that threshold. -/
def cacheFresh (st : CacheState) (symbol timeframe : String) (now : ℚ) :
    Prop :=
  ∃ df, get_cached_data st symbol timeframe = some df ∧ df ≠ [] ∧
    ∀ last, df.getLast? = some last →
      now - last.timestamp ≤ 1.5 * timeframeMinutes timeframe

instance (st : CacheState) (symbol timeframe : String) (now : ℚ) :
    Decidable (cacheFresh st symbol timeframe now) := by
  unfold cacheFresh; infer_instance

end MarketDataMod

namespace MultiTimeframeMod

/-- A weight dict `{timeframe: weight}` with dict semantics. -/
abbrev WeightDict := List (String × ℚ)

/-- Dict update for weight dicts (overwrite on duplicate key, matching
the Python dict comprehension `{tf.timeframe: tf.weight for tf in ...}`
where a later duplicate timeframe overwrites the earlier entry). -/
def wput (d : WeightDict) (k : String) (v : ℚ) : WeightDict :=
  match d with
  | [] => [(k, v)]
  | (k', v') :: rest => if k' = k then (k', v) :: rest else (k', v') :: wput rest k v

/-- Dict lookup with default (`normalized_weights[tf.timeframe]` never
misses by construction; the default is junk). -/
def wget (d : WeightDict) (k : String) : ℚ :=
  match d with
  | [] => 0
  | (k', v) :: rest => if k' = k then v else wget rest k

/-- Sum of the dict's values (`sum(weights.values())`). -/
def wsum (d : WeightDict) : ℚ := (d.map (·.2)).sum

/-- `TimeframeWeight.normalize`: divide every value by the total, but
return the dict *unchanged* when the total is `≤ 0`. -/
def TimeframeWeight.normalize (weights : WeightDict) : WeightDict :=
  let total := wsum weights
  if total ≤ 0 then weights else weights.map (fun p => (p.1, p.2 / total))

/-- `TimeframeBias` constructor arguments. -/
structure TimeframeBias where
  timeframe : String
  bullish_score : ℚ
  bearish_score : ℚ
  confidence : ℚ
  weight : ℚ
deriving DecidableEq, Repr

/-- The `bias_direction` computed in `TimeframeBias.__init__` from
`diff = bullish_score - bearish_score`. -/
def TimeframeBias.bias_direction (tb : TimeframeBias) : String :=
  let diff := tb.bullish_score - tb.bearish_score
  if 25 < diff then "Strong Bullish"
  else if 10 < diff then "Bullish"
  else if diff < -25 then "Strong Bearish"
  else if diff < -10 then "Bearish"
  else "Neutral"

/-- The aggregate fields set by `MultiTimeframeResult._compute_aggregates`
(`confluence` is `None` on the empty input). -/
structure Aggregates where
  overall_bullish : ℚ
  overall_bearish : ℚ
  overall_confidence : ℚ
  overall_bias : String
  confluence : Option ℚ
deriving DecidableEq, Repr

/-- Builds the weight dict `{tf.timeframe: tf.weight for tf in tfs}`. -/
def weightsOf (tfs : List TimeframeBias) : WeightDict :=
  tfs.foldl (fun d tb => wput d tb.timeframe tb.weight) []

/-- `MultiTimeframeResult._compute_aggregates`: normalise the per-bias
weights, average the scores by the normalised weights (guarding the
division by `total_weight`), derive the overall bias from the score
difference, and compute the timeframe-alignment confluence. -/
def compute_aggregates (tfs : List TimeframeBias) : Aggregates :=
  if tfs = [] then
    { overall_bullish := 0, overall_bearish := 0, overall_confidence := 0
      overall_bias := "Neutral", confluence := none }
  else
    let weights := weightsOf tfs
    let normalized_weights := TimeframeWeight.normalize weights
    let total_weight := wsum normalized_weights
    let overall_bullish :=
      if 0 < total_weight then
        (tfs.map (fun tb => tb.bullish_score * wget normalized_weights tb.timeframe)).sum / total_weight
      else 0
    let overall_bearish :=
      if 0 < total_weight then
        (tfs.map (fun tb => tb.bearish_score * wget normalized_weights tb.timeframe)).sum / total_weight
      else 0
    let overall_confidence :=
      if 0 < total_weight then
        (tfs.map (fun tb => tb.confidence * wget normalized_weights tb.timeframe)).sum / total_weight
      else 0
    let diff := overall_bullish - overall_bearish
    let overall_bias :=
      if 25 < diff then "Strong Bullish"
      else if 10 < diff then "Bullish"
      else if diff < -25 then "Strong Bearish"
      else if diff < -10 then "Bearish"
      else "Neutral"
    let confluence :=
      if 1 < tfs.length then
        let bias_alignments := tfs.map
          (fun tb => if tb.bias_direction = overall_bias then (1 : ℚ) else 0.5)
        some (bias_alignments.sum / (bias_alignments.length : ℚ) * 100)
      else some 100
    { overall_bullish := overall_bullish
      overall_bearish := overall_bearish
      overall_confidence := overall_confidence
      overall_bias := overall_bias
      confluence := confluence }

/-- The unweighted (uniform) average of a per-timeframe projection — the
behaviour claim C4 asserts for a zero weight total.  This definition
follows the *spec's* words ("the unweighted averages of the
per-timeframe values"), to be compared against `compute_aggregates`. -/
def uniformAverage (tfs : List TimeframeBias) (f : TimeframeBias → ℚ) : ℚ :=
  (tfs.map f).sum / (tfs.length : ℚ)

end MultiTimeframeMod

namespace TechnicalIndicators

/-- A numpy float array of definite values. -/
abbrev Series := List ℚ

/-- A numpy/pandas float array in which entries may be NaN (`none`). -/
abbrev OSeries := List (Option ℚ)

/-- `pd.Series(l).rolling(window=period).mean()`: the mean of the window
of size `period` ending at each index; NaN (`none`) while the window is
not yet full or when the window contains a NaN. -/
def rollingMeanO (l : OSeries) (period : ℕ) : OSeries :=
  (List.range l.length).map (fun i =>
    if period ≤ i + 1 then
      let w := (l.take (i + 1)).drop (i + 1 - period)
      if w.all (·.isSome) then some ((w.filterMap id).sum / (period : ℚ))
      else none
    else none)

/-- `pd.Series(l).rolling(window=period).min()` on a definite series. -/
def rollingMin (l : Series) (period : ℕ) : OSeries :=
  (List.range l.length).map (fun i =>
    if period ≤ i + 1 then
      match (l.take (i + 1)).drop (i + 1 - period) with
      | [] => none
      | x :: xs => some (xs.foldl min x)
    else none)

/-- `pd.Series(l).rolling(window=period).max()` on a definite series. -/
def rollingMax (l : Series) (period : ℕ) : OSeries :=
  (List.range l.length).map (fun i =>
    if period ≤ i + 1 then
      match (l.take (i + 1)).drop (i + 1 - period) with
      | [] => none
      | x :: xs => some (xs.foldl max x)
    else none)

/-- `pd.Series(l).rolling(window=period).apply(f)` on a definite series. -/
def rollingApply (f : List ℚ → ℚ) (l : Series) (period : ℕ) : OSeries :=
  (List.range l.length).map (fun i =>
    if period ≤ i + 1 then some (f ((l.take (i + 1)).drop (i + 1 - period)))
    else none)

/-- `TechnicalIndicators.sma`: rolling mean over `period` bars. -/
def sma (data : Series) (period : ℕ) : OSeries :=
  rollingMeanO (data.map some) period

/-- Rolling *sample* standard deviation,
`pd.Series(data).rolling(window=period).std()` (ddof = 1).  `ℚ` has no
square root, so the value stored is the sample variance; every claim in
this development about this series concerns only its length and
NaN pattern, which the pointwise square root does not change. -/
def rollingStd (data : Series) (period : ℕ) : OSeries :=
  rollingApply
    (fun w =>
      let m := w.sum / (period : ℚ)
      (w.map (fun x => (x - m) ^ 2)).sum / ((period : ℚ) - 1))
    data period

/-- Tail of `ewm(span=period, adjust=False).mean()`:
`e_i = α·x_i + (1-α)·e_{i-1}`. -/
def emaGo (alpha : ℚ) (prev : ℚ) : List ℚ → List ℚ
  | [] => []
  | x :: xs =>
      let e := alpha * x + (1 - alpha) * prev
      e :: emaGo alpha e xs

/-- `TechnicalIndicators.ema`:
`pd.Series(data).ewm(span=period, adjust=False).mean()`, with
`α = 2 / (span + 1)` and `e_0 = x_0`. -/
def ema (data : Series) (period : ℕ) : Series :=
  match data with
  | [] => []
  | x :: xs => x :: emaGo (2 / ((period : ℚ) + 1)) x xs

/-- The smoothing loop of `TechnicalIndicators.rsi` (indices from
`period` onward), carrying the running `up`/`down` averages. -/
def rsiLoop (period : ℕ) (up down : ℚ) : List ℚ → List ℚ
  | [] => []
  | d :: rest =>
      let upval := if 0 < d then d else 0
      let downval := if 0 < d then 0 else -d
      let up' := (up * ((period : ℚ) - 1) + upval) / (period : ℚ)
      let down' := (down * ((period : ℚ) - 1) + downval) / (period : ℚ)
      let rs := if down' ≠ 0 then up' / down' else 0
      (100 - 100 / (1 + rs)) :: rsiLoop period up' down' rest

/-- `TechnicalIndicators.rsi`: Wilder RSI.  The first `period` entries
(clipped to the data length) hold the seed value; the loop then walks
`deltas[period-1:]`. -/
def rsi (data : Series) (period : ℕ := 14) : Series :=
  let deltas := List.zipWith (fun a b => a - b) (data.drop 1) data
  let seed := deltas.take (period + 1)
  let up := (seed.filter (fun d => 0 ≤ d)).sum / (period : ℚ)
  let down := -((seed.filter (fun d => d < 0)).sum) / (period : ℚ)
  let rs := if down ≠ 0 then up / down else 0
  List.replicate (min period data.length) (100 - 100 / (1 + rs)) ++
    rsiLoop period up down (deltas.drop (period - 1))

/-- `TechnicalIndicators.macd`: MACD line, signal line, histogram. -/
def macd (data : Series) (fast : ℕ := 12) (slow : ℕ := 26)
    (signal : ℕ := 9) : Series × Series × Series :=
  let ema_fast := ema data fast
  let ema_slow := ema data slow
  let macd_line := List.zipWith (fun a b => a - b) ema_fast ema_slow
  let signal_line := ema macd_line signal
  let histogram := List.zipWith (fun a b => a - b) macd_line signal_line
  (macd_line, signal_line, histogram)

/-- `TechnicalIndicators.bollinger_bands`: upper, middle, lower bands
(NaN propagates through the elementwise arithmetic). -/
def bollinger_bands (data : Series) (period : ℕ := 20)
    (std_dev : ℚ := 2.0) : OSeries × OSeries × OSeries :=
  let middle := sma data period
  let std := rollingStd data period
  let upper := List.zipWith (fun m s => Option.map₂ (fun m s => m + s * std_dev) m s) middle std
  let lower := List.zipWith (fun m s => Option.map₂ (fun m s => m - s * std_dev) m s) middle std
  (upper, middle, lower)

/-- `np.roll(l, 1)`: rotate one step, last element to the front. -/
def npRoll1 (l : Series) : Series :=
  match l.getLast? with
  | none => []
  | some last => last :: l.dropLast

/-- The Wilder smoothing loop of `TechnicalIndicators.atr` (indices from
`period` onward). -/
def atrLoop (period : ℕ) (prev : ℚ) : List ℚ → List ℚ
  | [] => []
  | t :: rest =>
      let a := (prev * ((period : ℚ) - 1) + t) / (period : ℚ)
      a :: atrLoop period a rest

/-- `tr[0] = tr1[0]` followed by the seeding and smoothing of
`TechnicalIndicators.atr`: indexing an empty true-range array raises
`IndexError`; otherwise the head of `tr` is replaced by `tr1[0]`, the
first `period` entries are seeded with `tr[:period].mean()` (numpy
divides by the *slice* length) and Wilder smoothing follows. -/
def atrAssemble (period : ℕ) : List ℚ → List ℚ → Except String Series
  | _ :: trest, t1 :: _ =>
      let trFixed := t1 :: trest
      let seed := trFixed.take period
      let seedMean := seed.sum / (seed.length : ℚ)
      .ok (List.replicate (min period trFixed.length) seedMean ++
        atrLoop period seedMean (trFixed.drop period))
  | _, _ => .error "index 0 is out of bounds for axis 0 with size 0"

/-- `TechnicalIndicators.atr`: true range as the max of the high-low
range and the absolute gaps to the rolled previous close. -/
def atr (high low close : Series) (period : ℕ := 14) :
    Except String Series :=
  let tr1 := List.zipWith (fun h l => h - l) high low
  let rolled := npRoll1 close
  let tr2 := List.zipWith (fun h c => |h - c|) high rolled
  let tr3 := List.zipWith (fun l c => |l - c|) low rolled
  let tr := List.zipWith max tr1 (List.zipWith max tr2 tr3)
  atrAssemble period tr tr1

/-- `TechnicalIndicators.stochastic`: raw %K (zeros outside the filled
windows and where the range collapses), then SMA-smoothed %K and %D. -/
def stochastic (high low close : Series) (period : ℕ := 14)
    (smooth_k : ℕ := 3) (smooth_d : ℕ := 3) : OSeries × OSeries :=
  let lowest_low := rollingMin low period
  let highest_high := rollingMax high period
  let k_raw : Series := (List.range close.length).map (fun i =>
    if period ≤ i + 1 then
      match highest_high.getD i none, lowest_low.getD i none with
      | some hh, some ll =>
          if hh ≠ ll then 100 * (close.getD i 0 - ll) / (hh - ll) else 0
      | _, _ => 0
    else 0)
  let k_smooth := sma k_raw smooth_k
  let d_smooth := rollingMeanO k_smooth smooth_d
  (k_smooth, d_smooth)

/-- The accumulation loop of `TechnicalIndicators.obv` over the pairs
`(close[i], volume[i])` for `i ≥ 1`. -/
def obvLoop (prev prevClose : ℚ) : List (ℚ × ℚ) → List ℚ
  | [] => []
  | (c, v) :: rest =>
      let o := if prevClose < c then prev + v
               else if c < prevClose then prev - v
               else prev
      o :: obvLoop o c rest

/-- `TechnicalIndicators.obv`: `obv_values[0] = volume[0]` raises
`IndexError` on an empty input; otherwise a running volume sum signed by
the close-to-close direction. -/
def obv (close volume : Series) : Except String Series :=
  match close, volume with
  | c0 :: crest, v0 :: vrest =>
      .ok (v0 :: obvLoop v0 c0 (List.zip crest vrest))
  | _, _ => .error "index 0 is out of bounds for axis 0 with size 0"

/-- `+DM` of `TechnicalIndicators.adx`: zero at index 0, then the upward
move when it dominates the downward move and is positive. -/
def plusDM (high low : Series) : Series :=
  let moves := List.zip (List.zip high (high.drop 1)) (List.zip low (low.drop 1))
  match high with
  | [] => []
  | _ => 0 :: moves.map (fun p =>
      let up_move := p.1.2 - p.1.1
      let down_move := p.2.1 - p.2.2
      if down_move < up_move ∧ 0 < up_move then up_move else 0)

/-- `-DM` of `TechnicalIndicators.adx`. -/
def minusDM (high low : Series) : Series :=
  let moves := List.zip (List.zip high (high.drop 1)) (List.zip low (low.drop 1))
  match high with
  | [] => []
  | _ => 0 :: moves.map (fun p =>
      let up_move := p.1.2 - p.1.1
      let down_move := p.2.1 - p.2.2
      if up_move < down_move ∧ 0 < down_move then down_move else 0)

/-- The pure tail of `TechnicalIndicators.adx` once the ATR is known:
`±DI`, `DX` with the zero-sum guard, and a final SMA. -/
def adxFrom (plus_dm minus_dm atr_vals : Series) (period : ℕ) : OSeries :=
  let plus_di := List.zipWith (fun o a => o.map (fun x => 100 * x / a))
    (sma plus_dm period) atr_vals
  let minus_di := List.zipWith (fun o a => o.map (fun x => 100 * x / a))
    (sma minus_dm period) atr_vals
  let di_diff := List.zipWith (Option.map₂ (fun a b => |a - b|)) plus_di minus_di
  let di_sum0 := List.zipWith (Option.map₂ (· + ·)) plus_di minus_di
  let di_sum := di_sum0.map (Option.map (fun x => if x = 0 then 1 else x))
  let dx := List.zipWith (Option.map₂ (fun d s => 100 * d / s)) di_diff di_sum
  rollingMeanO dx period

/-- `TechnicalIndicators.adx`: directional movement, smoothed and
normalised by the ATR (whose `IndexError` on empty input propagates).
A zero ATR entry yields an infinity in numpy; the claims below never
inspect such a value. -/
def adx (high low close : Series) (period : ℕ := 14) :
    Except String OSeries := do
  let atr_vals ← atr high low close period
  .ok (adxFrom (plusDM high low) (minusDM high low) atr_vals period)

/-- `TechnicalIndicators.roc`: percentage rate of change over `period`
bars, zero in the warm-up region and where the reference price is zero. -/
def roc (data : Series) (period : ℕ := 12) : Series :=
  (List.range data.length).map (fun i =>
    if period ≤ i ∧ data.getD (i - period) 0 ≠ 0 then
      ((data.getD i 0 - data.getD (i - period) 0) / data.getD (i - period) 0) * 100
    else 0)

/-- `TechnicalIndicators.williams_percent_r`. -/
def williams_percent_r (high low close : Series) (period : ℕ := 14) :
    Series :=
  let highest_high := rollingMax high period
  let lowest_low := rollingMin low period
  (List.range close.length).map (fun i =>
    if period ≤ i + 1 then
      match highest_high.getD i none, lowest_low.getD i none with
      | some hh, some ll =>
          if hh ≠ ll then (-100) * (hh - close.getD i 0) / (hh - ll) else 0
      | _, _ => 0
    else 0)

/-- `TechnicalIndicators.cci`: typical price against its rolling mean,
scaled by `0.015 ×` the rolling mean absolute deviation. -/
def cci (high low close : Series) (period : ℕ := 20) : Series :=
  let typical_price :=
    (List.zipWith (· + ·) (List.zipWith (· + ·) high low) close).map (· / 3)
  let sma_tp := rollingMeanO (typical_price.map some) period
  let mad := rollingApply
    (fun w =>
      let m := w.sum / (period : ℚ)
      (w.map (fun x => |x - m|)).sum / (period : ℚ))
    typical_price period
  (List.range close.length).map (fun i =>
    if period ≤ i + 1 then
      match mad.getD i none, sma_tp.getD i none with
      | some m, some s =>
          if m ≠ 0 then (typical_price.getD i 0 - s) / (0.015 * m) else 0
      | _, _ => 0
    else 0)

end TechnicalIndicators

namespace CandlestickContextMod

open MarketDataMod (Candle)

/-- `PatternContext` dataclass (candlestick_context.py). -/
structure PatternContext where
  trend_direction : String
  volatility_regime : String
  near_support : Bool
  near_resistance : Bool
  in_liquidity_zone : Bool
  candle_strength : ℚ
deriving DecidableEq, Repr

/-- A zero candle, used only as the (unreachable) default of a
`getLast?` lookup that the source guards with a length check. -/
def zeroCandle : Candle :=
  { timestamp := 0, copen := 0, chigh := 0, clow := 0, cclose := 0
    volume := 0, realVolume := 0, spread := 0 }

/-- `series.tail(10).mean()` applied to a per-candle projection. -/
def tail10mean (candles : List Candle) (f : Candle → ℚ) : ℚ :=
  listMean ((candles.map f).drop (candles.length - 10))

/-- `CandlestickContextEvaluator._get_pattern_signal`. -/
def get_pattern_signal (pattern_type : String) : String :=
  let bullish_patterns :=
    ["hammer", "inverted_hammer", "bullish_engulfing",
     "morning_star", "pin_bar_bullish", "inside_bar_bullish",
     "mechanical_doji_bullish", "synthetic_reversal_candle_bullish"]
  let bearish_patterns :=
    ["hanging_man", "bearish_engulfing",
     "evening_star", "pin_bar_bearish", "inside_bar_bearish",
     "mechanical_doji_bearish", "synthetic_reversal_candle_bearish"]
  if pattern_type ∈ bullish_patterns then "bullish"
  else if pattern_type ∈ bearish_patterns then "bearish"
  else "neutral"

/-- The trend-alignment block of `_apply_context_adjustments`
(`adjusted *= 1.15 / 0.9 / 0.7`). -/
def trendAdjust (adjusted : ℚ) (signal_type : String)
    (context : PatternContext) : ℚ :=
  if signal_type = "bullish" ∧ context.trend_direction = "up" then adjusted * 1.15
  else if signal_type = "bearish" ∧ context.trend_direction = "down" then adjusted * 1.15
  else if context.trend_direction = "sideways" then adjusted * 0.9
  else adjusted * 0.7

/-- The support/resistance block of `_apply_context_adjustments`
(`adjusted *= 1.20` at a matching level). -/
def srAdjust (adjusted : ℚ) (signal_type : String)
    (context : PatternContext) : ℚ :=
  if signal_type = "bullish" ∧ context.near_support then adjusted * 1.20
  else if signal_type = "bearish" ∧ context.near_resistance then adjusted * 1.20
  else adjusted

/-- The volatility block of `_apply_context_adjustments`
(`adjusted *= 0.8 / 0.9`). -/
def volAdjust (adjusted : ℚ) (context : PatternContext) : ℚ :=
  if context.volatility_regime = "high" then adjusted * 0.8
  else if context.volatility_regime = "low" then adjusted * 0.9
  else adjusted

/-- The candle-strength block of `_apply_context_adjustments`
(`adjusted *= 1.10 / 0.7`). -/
def strengthAdjust (adjusted : ℚ) (context : PatternContext) : ℚ :=
  if 70 < context.candle_strength then adjusted * 1.10
  else if context.candle_strength < 30 then adjusted * 0.7
  else adjusted

/-- `CandlestickContextEvaluator._apply_context_adjustments`: trend
alignment, support/resistance, volatility-regime, and candle-strength
multipliers, applied in sequence; the result is clamped to `[0, 100]`.
(`pattern_type` and `candles` are parameters of the source method that
its body does not read.) -/
def apply_context_adjustments (confidence : ℚ) (_pattern_type : String)
    (signal_type : String) (context : PatternContext)
    (_candles : List Candle) : ℚ :=
  min 100 (max 0
    (strengthAdjust
      (volAdjust (srAdjust (trendAdjust confidence signal_type context)
        signal_type context) context) context))

/-- `CandlestickContextEvaluator._apply_false_positive_filter`: zero on
fewer than five candles; otherwise multiplies the confidence down for a
wide spread, a small body relative to the recent average range, or low
volume relative to the recent average, then clamps to `[0, 100]`. -/
def apply_false_positive_filter (confidence : ℚ) (_pattern_type : String)
    (candles : List Candle) (_context : PatternContext) : ℚ :=
  if candles.length < 5 then 0
  else
    let last_candle := candles.getLast?.getD zeroCandle
    let spread := last_candle.spread
    let confidence :=
      if 0 < spread then
        let spread_pct := spread / last_candle.cclose * 100
        if 0.5 < spread_pct then confidence * 0.6 else confidence
      else confidence
    let candle_size := |last_candle.cclose - last_candle.copen|
    let avg_candle_size := tail10mean candles (fun r => r.chigh - r.clow)
    let confidence :=
      if 0 < avg_candle_size ∧ candle_size < avg_candle_size * 0.3 then
        confidence * 0.5
      else confidence
    let volume := last_candle.volume
    let avg_volume := tail10mean candles (·.volume)
    let confidence :=
      if 0 < avg_volume ∧ volume < avg_volume * 0.3 then confidence * 0.7
      else confidence
    min 100 (max 0 confidence)

/-- `CandlestickContextEvaluator.evaluate_pattern` on the path where a
`PatternContext` is supplied (when `context` is `None` the source first
computes one with `_analyze_context`; quantifying over every context in
the theorems below covers whatever context that call produces): context
adjustments, then false-positive filtering, then the global pattern
weight `0.6`. -/
def evaluate_pattern (candles : List Candle) (pattern_type : String)
    (pattern_confidence : ℚ) (context : PatternContext) : ℚ × String :=
  let signal_type := get_pattern_signal pattern_type
  let adjusted_confidence := apply_context_adjustments pattern_confidence
    pattern_type signal_type context candles
  let adjusted_confidence := apply_false_positive_filter adjusted_confidence
    pattern_type candles context
  (adjusted_confidence * 0.6, signal_type)

end CandlestickContextMod

namespace ForexAnalyzerMod

/-- The setup-status heuristic at the end of `ForexAnalyzer.analyze`
(dict-input path, lines 316-329): `valid` needs all three scores above
their hard thresholds, `forming` needs any above its soft threshold. -/
def setup_status (confluence_score struct_score patt_score : ℚ) : String :=
  if 65 ≤ confluence_score ∧ 55 ≤ struct_score ∧ 50 ≤ patt_score then
    "valid"
  else if 50 ≤ confluence_score ∨ 50 ≤ struct_score ∨ 45 ≤ patt_score then
    "forming"
  else "no_setup"

/-- The direction label derived from the overall confluence score
(line 332): `'bullish' if confluence_score > 52 else 'bearish' if
confluence_score < 48 else 'neutral'`. -/
def direction_label (confluence_score : ℚ) : String :=
  if 52 < confluence_score then "bullish"
  else if confluence_score < 48 then "bearish"
  else "neutral"

end ForexAnalyzerMod

namespace ConcreteData

open ConfluenceEngineMod MarketDataMod MultiTimeframeMod CandlestickContextMod

/-- A candle with the given timestamp and simple OHLCV values, used to
populate concrete cache states and windows. -/
def mkCandle (t : ℚ) : Candle :=
  { timestamp := t, copen := 1, chigh := 2, clow := 1, cclose := 2
    volume := 10, realVolume := 10, spread := 1 }

/-- A cache state holding a window for EURUSD M1 whose last candle is at
time 1000, and an unrelated GBPUSD H1 window. -/
def st1 : CacheState :=
  [("EURUSD", [("M1", [mkCandle 1000])]),
   ("GBPUSD", [("H1", [mkCandle 2000])])]

/-- A concrete bridge that always returns a one-candle rates list. -/
def bridge1 : String → String → ℕ → ℕ → Option (List Candle) :=
  fun _ _ _ _ => some [mkCandle 2000]

/-- A retained Neutral signal: MOMENTUM category (weight 0.90),
confidence 50 ≥ the default threshold 40, custom weight 1. -/
def c2sig : Signal :=
  mkSignal SignalCategory.MOMENTUM SignalType.NEUTRAL 50 1
    "stochastic_flat" "flat oscillator"

/-- A constructed (hence normalised) confluence result carrying a
non-empty `weighted_signals` list. -/
def r0 : ConfluenceResult :=
  mkConfluenceResult 50 30 20 50 "Bullish" 3 2 1 0 [("rsi", 40)] [1]

/-- A normalised confluence result whose bias label matches its scores
and whose top factors are sorted, with empty `weighted_signals`. -/
def r1 : ConfluenceResult :=
  { bullish_score := 50, bearish_score := 30, neutral_probability := 20
    confidence_percentage := 50, market_bias := "Bullish"
    signal_count := 3, bullish_signals := 2, bearish_signals := 1
    neutral_signals := 0, top_factors := [("rsi", 40), ("macd", 30)]
    weighted_signals := [] }

/-- Two timeframe biases whose weights sum to zero but whose scores have
uniform average 50. -/
def c4tfs : List TimeframeBias :=
  [{ timeframe := "M1", bullish_score := 50, bearish_score := 0
     confidence := 40, weight := 0 },
   { timeframe := "H1", bullish_score := 50, bearish_score := 0
     confidence := 40, weight := 0 }]

/-- A five-candle window for the pattern-evaluation witness. -/
def c7candles : List Candle :=
  [mkCandle 1, mkCandle 2, mkCandle 3, mkCandle 4, mkCandle 5]

/-- A pattern context aligned with an uptrend at support: the most
confidence-boosting combination. -/
def c7ctx : PatternContext :=
  { trend_direction := "up", volatility_regime := "normal"
    near_support := true, near_resistance := false
    in_liquidity_zone := false, candle_strength := 80 }

end ConcreteData

/-! ## Shared helper lemmas -/

theorem clamp100_nonneg (x : ℚ) : 0 ≤ clamp100 x := le_max_left 0 _

theorem clamp100_le_100 (x : ℚ) : clamp100 x ≤ 100 := by
  unfold clamp100
  exact max_le (by norm_num) (min_le_left _ _)

theorem clamp100_eq_self {x : ℚ} (h0 : 0 ≤ x) (h1 : x ≤ 100) :
    clamp100 x = x := by
  unfold clamp100
  rw [min_eq_right h1, max_eq_right h0]

/-! ## C2 -/

open ConfluenceEngineMod ConcreteData in
/-- C2 (corrected): a signal retained by the confluence engine has
weighted signal `sign × confidence × effective_weight`, but the sign is
`+1` for Bullish and `-1` for *both* Bearish and Neutral — the source
chooses `base_value = -100.0` for every non-Bullish signal, so a Neutral
signal does not contribute zero. -/
theorem C2_theorem (signals : List Signal) (min_confidence : ℚ)
    (s : Signal) (hs : s ∈ validSignals signals min_confidence) :
    s.get_weighted_signal =
      (if s.signal_type = SignalType.BULLISH then 1 else -1) *
        s.confidence * s.get_effective_weight := by
  simp only [Signal.get_weighted_signal]
  by_cases h : s.signal_type = SignalType.BULLISH
  · simp only [if_pos h]; ring
  · simp only [if_neg h]; ring

open ConfluenceEngineMod ConcreteData in
/-- C2 witness: a concrete retained signal instantiating the theorem. -/
theorem C2_witness :
    c2sig ∈ validSignals [c2sig] 40 ∧
    c2sig.get_weighted_signal =
      (if c2sig.signal_type = SignalType.BULLISH then 1 else -1) *
        c2sig.confidence * c2sig.get_effective_weight :=
  ⟨by decide, C2_theorem [c2sig] 40 c2sig (by decide)⟩

open ConfluenceEngineMod ConcreteData in
/-- C2 counterexample: a Neutral MOMENTUM signal with confidence 50 and
weight 1 is retained at the default threshold 40, yet its weighted
signal is `-45`, not the `0` the claim's `sign(Neutral) = 0` demands. -/
theorem C2_counterexample :
    c2sig ∈ validSignals [c2sig] 40 ∧
    c2sig.signal_type = SignalType.NEUTRAL ∧
    c2sig.get_weighted_signal = -45 ∧ c2sig.get_weighted_signal ≠ 0 := by
  have h : c2sig.get_weighted_signal = -45 := by
    simp [c2sig, mkSignal, Signal.get_weighted_signal,
      Signal.get_effective_weight, SignalCategory.value]
    norm_num
  exact ⟨by decide, by decide, h, by rw [h]; norm_num⟩

/-! ## C6 -/

open ConfluenceEngineMod in
/-- C6 (confirmed): for every constructed `ConfluenceResult` — any
constructor inputs, after the post-initialiser's clamping and
normalisation — the sum of `bullish_score`, `bearish_score` and
`neutral_probability` lies in `[0, 100 + ε]` with `ε = 0.01` (over exact
rationals the sum is in fact either `0` or exactly `100`). -/
theorem C6_theorem (b be n c : ℚ) (bias : String) (sc bs bes ns : ℕ)
    (tf : List (String × ℚ)) (ws : List ℚ) :
    0 ≤ (mkConfluenceResult b be n c bias sc bs bes ns tf ws).bullish_score +
        (mkConfluenceResult b be n c bias sc bs bes ns tf ws).bearish_score +
        (mkConfluenceResult b be n c bias sc bs bes ns tf ws).neutral_probability ∧
      (mkConfluenceResult b be n c bias sc bs bes ns tf ws).bullish_score +
        (mkConfluenceResult b be n c bias sc bs bes ns tf ws).bearish_score +
        (mkConfluenceResult b be n c bias sc bs bes ns tf ws).neutral_probability ≤
        100 + (0.01 : ℚ) := by
  have hB0 := clamp100_nonneg b
  have hE0 := clamp100_nonneg be
  have hN0 := clamp100_nonneg n
  unfold mkConfluenceResult
  by_cases h : 0 < clamp100 b + clamp100 be + clamp100 n
  · have hne : clamp100 b + clamp100 be + clamp100 n ≠ 0 := ne_of_gt h
    have hsum : clamp100 b * (100 / (clamp100 b + clamp100 be + clamp100 n)) +
        clamp100 be * (100 / (clamp100 b + clamp100 be + clamp100 n)) +
        clamp100 n * (100 / (clamp100 b + clamp100 be + clamp100 n)) = 100 := by
      field_simp
      ring
    simp only [if_pos h]
    rw [hsum]
    norm_num
  · simp only [if_neg h]
    constructor
    · linarith
    · linarith

/-! ## C8 -/

open ForexAnalyzerMod in
/-- C8 (confirmed): the setup status is `'valid'` exactly when
`confluence ≥ 65 ∧ structure ≥ 55 ∧ pattern ≥ 50`; otherwise `'forming'`
exactly when `confluence ≥ 50 ∨ structure ≥ 50 ∨ pattern ≥ 45`;
otherwise `'no_setup'`; and the direction is `'bullish'` iff
`confluence > 52`, `'bearish'` iff `confluence < 48`, `'neutral'`
otherwise. -/
theorem C8_theorem (c s p : ℚ) :
    (setup_status c s p = "valid" ↔ (65 ≤ c ∧ 55 ≤ s ∧ 50 ≤ p)) ∧
    (setup_status c s p = "forming" ↔
      (¬(65 ≤ c ∧ 55 ≤ s ∧ 50 ≤ p) ∧ (50 ≤ c ∨ 50 ≤ s ∨ 45 ≤ p))) ∧
    (setup_status c s p = "no_setup" ↔
      (¬(65 ≤ c ∧ 55 ≤ s ∧ 50 ≤ p) ∧ ¬(50 ≤ c ∨ 50 ≤ s ∨ 45 ≤ p))) ∧
    (direction_label c = "bullish" ↔ 52 < c) ∧
    (direction_label c = "bearish" ↔ c < 48) ∧
    (direction_label c = "neutral" ↔ (c ≤ 52 ∧ 48 ≤ c)) := by
  unfold setup_status direction_label
  refine ⟨?_, ?_, ?_, ?_, ?_, ?_⟩ <;> split_ifs <;> simp_all <;>
    first | linarith | (constructor <;> linarith)

/-! ## C4 -/

open MultiTimeframeMod ConcreteData in
/-- C4 (corrected): when the per-timeframe weights sum to zero the
aggregation does *not* fall back to uniform weighting —
`TimeframeWeight.normalize` returns the weights unchanged for a
non-positive total, the guarded division then zeroes every aggregate,
and the overall bias is `"Neutral"`. -/
theorem C4_theorem (tfs : List TimeframeBias)
    (h : wsum (weightsOf tfs) ≤ 0) :
    (compute_aggregates tfs).overall_bullish = 0 ∧
    (compute_aggregates tfs).overall_bearish = 0 ∧
    (compute_aggregates tfs).overall_confidence = 0 ∧
    (compute_aggregates tfs).overall_bias = "Neutral" := by
  unfold compute_aggregates
  by_cases he : tfs = []
  · simp [he]
  · have hnorm : TimeframeWeight.normalize (weightsOf tfs) = weightsOf tfs := by
      unfold TimeframeWeight.normalize
      simp [if_pos h]
    have h' : ¬ (0 < wsum (weightsOf tfs)) := not_lt.mpr h
    simp only [if_neg he, hnorm, if_neg h']
    norm_num

open MultiTimeframeMod ConcreteData in
/-- C4 witness: two timeframes with zero weights instantiate the
theorem. -/
theorem C4_witness :
    wsum (weightsOf c4tfs) ≤ 0 ∧
    ((compute_aggregates c4tfs).overall_bullish = 0 ∧
     (compute_aggregates c4tfs).overall_bearish = 0 ∧
     (compute_aggregates c4tfs).overall_confidence = 0 ∧
     (compute_aggregates c4tfs).overall_bias = "Neutral") :=
  ⟨by simp [wsum, weightsOf, wput, c4tfs],
   C4_theorem c4tfs (by simp [wsum, weightsOf, wput, c4tfs])⟩

open MultiTimeframeMod ConcreteData in
/-- C4 counterexample: two timeframes with bullish score 50 and weight 0
have a zero weight total; the claim's uniform-average fallback would
give an overall bullish aggregate of 50, but the code returns 0. -/
theorem C4_counterexample :
    wsum (weightsOf c4tfs) = 0 ∧
    (compute_aggregates c4tfs).overall_bullish = 0 ∧
    uniformAverage c4tfs (·.bullish_score) = 50 ∧
    (compute_aggregates c4tfs).overall_bullish ≠
      uniformAverage c4tfs (·.bullish_score) := by
  have ha : (compute_aggregates c4tfs).overall_bullish = 0 := by
    simp [compute_aggregates, TimeframeWeight.normalize, wsum, weightsOf,
      wput, wget, c4tfs]
  have hb : uniformAverage c4tfs (·.bullish_score) = 50 := by
    norm_num [uniformAverage, c4tfs]
  exact ⟨by simp [wsum, weightsOf, wput, c4tfs], ha, hb,
    by rw [ha, hb]; norm_num⟩

/-! ## C10 -/

open MarketDataMod in
/-- Deleting one key of a string-keyed association dict leaves lookups
of every other key unchanged. -/
theorem dictGet_dictDel_ne {β : Type} (d : List (String × β))
    {k k' : String} (h : k ≠ k') :
    dictGet (dictDel d k) k' = dictGet d k' := by
  induction d with
  | nil => rfl
  | cons p rest ih =>
    obtain ⟨k1, v⟩ := p
    by_cases h1 : k1 = k
    · subst h1
      simp [dictDel, dictGet, h]
    · by_cases h2 : k1 = k'
      · simp [dictDel, dictGet, h1, h2, Ne.symm h]
      · simp [dictDel, dictGet, h1, h2, ih]

open MarketDataMod ConcreteData in
/-- C10 (corrected): invalidating the cache for one *non-empty* symbol
name leaves every other symbol's cached windows unchanged, both through
`clear_cache` and through `invalidate_symbol_cache`.  The non-emptiness
side condition is forced by Python truthiness: `clear_cache("")` takes
the clear-everything branch. -/
theorem C10_theorem (st : CacheState) (s s' tf : String)
    (h1 : s ≠ s') (h2 : s ≠ "") :
    get_cached_data (clear_cache st (some s)) s' tf =
      get_cached_data st s' tf ∧
    get_cached_data (invalidate_symbol_cache st s) s' tf =
      get_cached_data st s' tf := by
  simp only [clear_cache, invalidate_symbol_cache, get_cached_data]
  rw [if_neg h2]
  exact ⟨by rw [dictGet_dictDel_ne st h1], by rw [dictGet_dictDel_ne st h1]⟩

open MarketDataMod ConcreteData in
/-- C10 witness: clearing EURUSD leaves the GBPUSD H1 window intact. -/
theorem C10_witness :
    ("EURUSD" : String) ≠ "GBPUSD" ∧ ("EURUSD" : String) ≠ "" ∧
    (get_cached_data (clear_cache st1 (some "EURUSD")) "GBPUSD" "H1" =
       get_cached_data st1 "GBPUSD" "H1" ∧
     get_cached_data (invalidate_symbol_cache st1 "EURUSD") "GBPUSD" "H1" =
       get_cached_data st1 "GBPUSD" "H1") :=
  ⟨by decide, by decide,
   C10_theorem st1 "EURUSD" "GBPUSD" "H1" (by decide) (by decide)⟩

open MarketDataMod ConcreteData in
/-- C10 counterexample: with the empty string as the symbol argument,
`clear_cache` hits the falsy branch and clears the *entire* cache, so
another symbol's window does change — refuting the claim as stated,
which quantifies over all symbol pairs `s ≠ s'`. -/
theorem C10_counterexample :
    ("" : String) ≠ "EURUSD" ∧
    get_cached_data (clear_cache st1 (some "")) "EURUSD" "M1" ≠
      get_cached_data st1 "EURUSD" "M1" := by
  constructor
  · decide
  · decide

/-! ## C1 -/

open MarketDataMod ConcreteData in
/-- C1 (corrected): the effective `get_candles` performs a full fetch of
`count` bars from the bridge on *every* call with a valid timeframe —
the bridge is asked for exactly `count` bars regardless of the cache
state, and the returned window does not depend on the cache at all.  No
fresh-cache serve and no incremental top-up happen in this method. -/
theorem C1_theorem (bridge : String → String → ℕ → ℕ → Option (List Candle))
    (st st' : CacheState) (symbol tf : String) (count : ℕ)
    (h : tf ∈ validTimeframes) :
    (get_candles bridge st symbol tf count).requests = [count] ∧
    (get_candles bridge st symbol tf count).result =
      (get_candles bridge st' symbol tf count).result := by
  unfold get_candles
  rw [if_neg (not_not_intro h), if_neg (not_not_intro h)]
  cases hb : bridge symbol tf 0 count with
  | none => simp
  | some rates =>
    by_cases hr : rates = [] <;> simp [hr]

open MarketDataMod ConcreteData in
/-- C1 witness: a concrete bridge and cache state instantiating the
theorem at the valid timeframe M1. -/
theorem C1_witness :
    "M1" ∈ validTimeframes ∧
    ((get_candles bridge1 st1 "EURUSD" "M1" 500).requests = [500] ∧
     (get_candles bridge1 st1 "EURUSD" "M1" 500).result =
       (get_candles bridge1 [] "EURUSD" "M1" 500).result) :=
  ⟨by decide, C1_theorem bridge1 st1 [] "EURUSD" "M1" 500 (by decide)⟩

open MarketDataMod ConcreteData in
/-- C1 counterexample: the cache holds a *fresh* EURUSD M1 entry (last
candle at time 1000, now 1000.5, threshold 1.5 minutes), yet
`get_candles` still fetches from the bridge — and with the full count of
500 bars, not a `max(100, 5%)` top-up — refuting the claim that a fresh
cache entry is served without fetching. -/
theorem C1_counterexample :
    cacheFresh st1 "EURUSD" "M1" (2001/2) ∧
    (get_candles bridge1 st1 "EURUSD" "M1" 500).requests ≠ [] ∧
    (get_candles bridge1 st1 "EURUSD" "M1" 500).requests = [500] := by
  refine ⟨?_, by decide, by decide⟩
  refine ⟨[mkCandle 1000], by decide, by decide, ?_⟩
  intro last h
  simp only [List.getLast?] at h
  norm_num [mkCandle, timeframeMinutes] at h ⊢
  rw [← h]
  norm_num

/-! ## C9 -/

/-- Monadic bind on a successful `Except` computation just applies the
continuation. -/
theorem exceptBind_ok {ε α β : Type} (a : α) (f : α → Except ε β) :
    (Except.ok a >>= f : Except ε β) = f a := rfl

open ConfluenceEngineMod in
/-- The fallible `_compute_score` agrees with the pure model: its
internal mean is only taken over a non-empty list. -/
theorem compute_scoreE_eq (signals : List Signal) :
    compute_scoreE signals = .ok (compute_score signals) := by
  unfold compute_scoreE compute_score
  by_cases h : signals = []
  · simp [h]
  · have hm : signals.map (fun s => s.confidence * s.get_effective_weight) ≠ [] := by
      simpa using h
    simp [h, listMeanE, listMean, hm]

open ConfluenceEngineMod in
/-- The fallible `_compute_neutral` agrees with the pure model: the
division by the total signal count sits under a zero guard. -/
theorem compute_neutralE_eq (neutral_signals : List Signal)
    (total_signals : ℕ) :
    compute_neutralE neutral_signals total_signals =
      .ok (compute_neutral neutral_signals total_signals) := by
  unfold compute_neutralE compute_neutral
  by_cases h : total_signals = 0
  · simp [h]
  · have : ((total_signals : ℚ)) ≠ 0 := Nat.cast_ne_zero.mpr h
    simp [h, divE, this, exceptBind_ok]

open ConfluenceEngineMod in
/-- The fallible `_compute_confidence` agrees with the pure model: its
mean is over a non-empty list and the factor denominators are the
literals 20 and 8. -/
theorem compute_confidenceE_eq (signals : List Signal) :
    compute_confidenceE signals = .ok (compute_confidence signals) := by
  unfold compute_confidenceE compute_confidence
  by_cases h : signals = []
  · simp [h]
  · have hm : signals.map (·.confidence) ≠ [] := by simpa using h
    simp [h, listMeanE, listMean, hm, divE, exceptBind_ok]

open ConfluenceEngineMod in
/-- The fallible post-initialiser agrees with the pure model: the
normalisation division only happens when the total is positive. -/
theorem mkConfluenceResultE_eq (b be n c : ℚ) (bias : String)
    (sc bs bes ns : ℕ) (tf : List (String × ℚ)) (ws : List ℚ) :
    mkConfluenceResultE b be n c bias sc bs bes ns tf ws =
      .ok (mkConfluenceResult b be n c bias sc bs bes ns tf ws) := by
  unfold mkConfluenceResultE mkConfluenceResult
  by_cases h : 0 < clamp100 b + clamp100 be + clamp100 n
  · have : clamp100 b + clamp100 be + clamp100 n ≠ 0 := ne_of_gt h
    simp [h, divE, this, exceptBind_ok]
  · simp [h]

open ConfluenceEngineMod in
/-- C9 (confirmed): for every signal list and threshold,
`calculate_confluence` returns normally — the `Except`-threaded model,
in which every internal mean and division is fallible, always produces
`.ok` of the pure result; no guard is missing. -/
theorem C9_theorem (signals : List Signal) (min_confidence : ℚ) :
    calculate_confluenceE signals min_confidence =
      .ok (calculate_confluence signals min_confidence) := by
  unfold calculate_confluenceE calculate_confluence
  by_cases h : validSignals signals min_confidence = []
  · simp [h, mkConfluenceResultE_eq]
  · simp [h, compute_scoreE_eq, compute_neutralE_eq, compute_confidenceE_eq,
      mkConfluenceResultE_eq, exceptBind_ok]

/-! ## C3 -/

open ConfluenceEngineMod in
/-- Re-running the post-initialiser on fields that are already clamped
and normalised (scores summing to 0 or exactly 100) is the identity. -/
theorem mkConfluenceResult_of_normalized {b be n c : ℚ}
    (hb0 : 0 ≤ b) (hb1 : b ≤ 100) (he0 : 0 ≤ be) (he1 : be ≤ 100)
    (hn0 : 0 ≤ n) (hn1 : n ≤ 100) (hc0 : 0 ≤ c) (hc1 : c ≤ 100)
    (hsum : b + be + n = 0 ∨ b + be + n = 100)
    (bias : String) (sc bs bes ns : ℕ) (tf : List (String × ℚ))
    (ws : List ℚ) :
    mkConfluenceResult b be n c bias sc bs bes ns tf ws =
      ⟨b, be, n, c, bias, sc, bs, bes, ns, tf, ws⟩ := by
  unfold mkConfluenceResult
  rw [clamp100_eq_self hb0 hb1, clamp100_eq_self he0 he1,
    clamp100_eq_self hn0 hn1, clamp100_eq_self hc0 hc1]
  dsimp only
  rcases hsum with h | h
  · rw [h]
    norm_num
  · rw [h]
    norm_num

open ConfluenceEngineMod ConcreteData in
/-- C3 (corrected): merging a singleton `[r]` reproduces `r`'s scores,
confidence and signal counts, and — provided `r`'s top factors are
already sorted descending with at most five entries and its bias label
matches `_determine_bias` of its own scores, as holds for every result
of `calculate_confluence` — its top factors and bias too; but the merged
result's `weighted_signals` is always the dataclass default `[]`, so the
merge is the identity only up to that dropped field. -/
theorem C3_theorem (r : ConfluenceResult)
    (hrange : 0 ≤ r.bullish_score ∧ r.bullish_score ≤ 100 ∧
      0 ≤ r.bearish_score ∧ r.bearish_score ≤ 100 ∧
      0 ≤ r.neutral_probability ∧ r.neutral_probability ≤ 100 ∧
      0 ≤ r.confidence_percentage ∧ r.confidence_percentage ≤ 100)
    (hsum : r.bullish_score + r.bearish_score + r.neutral_probability = 0 ∨
      r.bullish_score + r.bearish_score + r.neutral_probability = 100)
    (htop : sortFactorsDesc r.top_factors = r.top_factors ∧
      r.top_factors.length ≤ 5)
    (hbias : r.market_bias = determine_bias r.bullish_score
      r.bearish_score r.confidence_percentage) :
    merge_confluences [r] none = .ok { r with weighted_signals := [] } := by
  obtain ⟨hb0, hb1, he0, he1, hn0, hn1, hc0, hc1⟩ := hrange
  obtain ⟨hfac, hlen⟩ := htop
  unfold merge_confluences
  simp only [List.cons_ne_self, if_false, List.replicate, Option.getD_none,
    List.length_cons, List.length_nil, List.zipWith_cons_cons,
    List.zipWith_nil_right, List.sum_cons, List.sum_nil, List.map_cons,
    List.map_nil, List.flatten, List.append_nil, reduceCtorEq, ite_false]
  norm_num [hfac, List.take_of_length_le hlen]
  rw [← hbias]
  rw [mkConfluenceResult_of_normalized hb0 hb1 he0 he1 hn0 hn1 hc0 hc1 hsum]

open ConfluenceEngineMod ConcreteData in
/-- C3 witness: a concrete normalised result instantiating the merge
theorem. -/
theorem C3_witness :
    (0 ≤ r1.bullish_score ∧ r1.bullish_score ≤ 100 ∧
     0 ≤ r1.bearish_score ∧ r1.bearish_score ≤ 100 ∧
     0 ≤ r1.neutral_probability ∧ r1.neutral_probability ≤ 100 ∧
     0 ≤ r1.confidence_percentage ∧ r1.confidence_percentage ≤ 100) ∧
    (r1.bullish_score + r1.bearish_score + r1.neutral_probability = 0 ∨
     r1.bullish_score + r1.bearish_score + r1.neutral_probability = 100) ∧
    (sortFactorsDesc r1.top_factors = r1.top_factors ∧
     r1.top_factors.length ≤ 5) ∧
    r1.market_bias = determine_bias r1.bullish_score r1.bearish_score
      r1.confidence_percentage ∧
    merge_confluences [r1] none = .ok { r1 with weighted_signals := [] } :=
  ⟨by decide, by norm_num [r1], by decide,
   by norm_num [r1, determine_bias],
   C3_theorem r1 (by decide) (by norm_num [r1]) (by decide)
     (by norm_num [r1, determine_bias])⟩

open ConfluenceEngineMod ConcreteData in
/-- C3 counterexample: `r0` is a constructed `ConfluenceResult` with
`weighted_signals = [1]`; merging the singleton `[r0]` rebuilds the
result with the dataclass default `weighted_signals = []`, so the merge
is *not* the identity on every field. -/
theorem C3_counterexample :
    merge_confluences [r0] none ≠ Except.ok r0 := by
  simp [merge_confluences, r0, mkConfluenceResult, clamp100, sortFactorsDesc,
    insFactorDesc, determine_bias]

/-! ## C7 -/

open CandlestickContextMod MarketDataMod in
/-- The context-adjustment step never returns a negative confidence. -/
theorem ctx_adjust_nonneg (conf : ℚ) (pt st : String)
    (ctx : PatternContext) (cs : List Candle) :
    0 ≤ apply_context_adjustments conf pt st ctx cs := by
  unfold apply_context_adjustments
  exact le_min (by norm_num) (le_max_left _ _)

open CandlestickContextMod MarketDataMod in
/-- The trend block scales a non-negative value by at most `1.15`. -/
theorem trendAdjust_le (x : ℚ) (st : String) (ctx : PatternContext)
    (hx : 0 ≤ x) :
    0 ≤ trendAdjust x st ctx ∧ trendAdjust x st ctx ≤ x * (23 / 20) := by
  unfold trendAdjust
  split_ifs <;> constructor <;> linarith

open CandlestickContextMod MarketDataMod in
/-- The support/resistance block scales a non-negative value by at most
`1.20`. -/
theorem srAdjust_le (x : ℚ) (st : String) (ctx : PatternContext)
    (hx : 0 ≤ x) :
    0 ≤ srAdjust x st ctx ∧ srAdjust x st ctx ≤ x * (6 / 5) := by
  unfold srAdjust
  split_ifs <;> constructor <;> linarith

open CandlestickContextMod MarketDataMod in
/-- The volatility block never scales a non-negative value up. -/
theorem volAdjust_le (x : ℚ) (ctx : PatternContext) (hx : 0 ≤ x) :
    0 ≤ volAdjust x ctx ∧ volAdjust x ctx ≤ x := by
  unfold volAdjust
  split_ifs <;> constructor <;> linarith

open CandlestickContextMod MarketDataMod in
/-- The candle-strength block scales a non-negative value by at most
`1.10`. -/
theorem strengthAdjust_le (x : ℚ) (ctx : PatternContext) (hx : 0 ≤ x) :
    0 ≤ strengthAdjust x ctx ∧ strengthAdjust x ctx ≤ x * (11 / 10) := by
  unfold strengthAdjust
  split_ifs <;> constructor <;> linarith

open CandlestickContextMod MarketDataMod in
/-- The context-adjustment step boosts by at most
`1.15 × 1.20 × 1.10 = 759/500` before clamping at 100. -/
theorem ctx_adjust_le (conf : ℚ) (pt st : String) (ctx : PatternContext)
    (cs : List Candle) (h0 : 0 ≤ conf) :
    apply_context_adjustments conf pt st ctx cs ≤
      min 100 (conf * (759 / 500)) := by
  unfold apply_context_adjustments
  obtain ⟨t0, t1⟩ := trendAdjust_le conf st ctx h0
  obtain ⟨s0, s1⟩ := srAdjust_le (trendAdjust conf st ctx) st ctx t0
  obtain ⟨v0, v1⟩ := volAdjust_le (srAdjust (trendAdjust conf st ctx) st ctx) ctx s0
  obtain ⟨g0, g1⟩ := strengthAdjust_le
    (volAdjust (srAdjust (trendAdjust conf st ctx) st ctx) ctx) ctx v0
  refine min_le_min le_rfl (max_le (mul_nonneg h0 (by norm_num)) ?_)
  nlinarith

open CandlestickContextMod MarketDataMod in
/-- The false-positive filter only scales a non-negative confidence
down. -/
theorem fp_filter_le (conf : ℚ) (pt : String) (cs : List Candle)
    (ctx : PatternContext) (h0 : 0 ≤ conf) :
    apply_false_positive_filter conf pt cs ctx ≤ conf := by
  unfold apply_false_positive_filter
  dsimp only
  split_ifs <;>
    first
      | exact h0
      | exact le_trans (min_le_right _ _) (max_le h0 (by linarith))

open CandlestickContextMod MarketDataMod ConcreteData in
/-- C7 (confirmed): for every candle window, pattern name and context,
and every raw confidence in `[0, 100]`, the adjusted confidence returned
by `evaluate_pattern` (context adjustments, then false-positive
filtering, then the global pattern weight 0.6) is at most the raw
confidence. -/
theorem C7_theorem (candles : List Candle) (pattern_type : String)
    (conf : ℚ) (context : PatternContext) (h0 : 0 ≤ conf)
    (h1 : conf ≤ 100) :
    (evaluate_pattern candles pattern_type conf context).1 ≤ conf := by
  unfold evaluate_pattern
  dsimp only
  have ha0 : 0 ≤ apply_context_adjustments conf pattern_type
      (get_pattern_signal pattern_type) context candles :=
    ctx_adjust_nonneg conf pattern_type _ context candles
  have ha1 : apply_context_adjustments conf pattern_type
      (get_pattern_signal pattern_type) context candles ≤
      min 100 (conf * (759 / 500)) :=
    ctx_adjust_le conf pattern_type _ context candles h0
  have h100 : apply_context_adjustments conf pattern_type
      (get_pattern_signal pattern_type) context candles ≤ 100 :=
    le_trans ha1 (min_le_left _ _)
  have h15 : apply_context_adjustments conf pattern_type
      (get_pattern_signal pattern_type) context candles ≤
      conf * (759 / 500) :=
    le_trans ha1 (min_le_right _ _)
  have hb : apply_false_positive_filter
      (apply_context_adjustments conf pattern_type
        (get_pattern_signal pattern_type) context candles)
      pattern_type candles context ≤
      apply_context_adjustments conf pattern_type
        (get_pattern_signal pattern_type) context candles :=
    fp_filter_le _ pattern_type candles context ha0
  rcases le_or_lt conf 60 with hc | hc
  · linarith
  · linarith

open CandlestickContextMod MarketDataMod ConcreteData in
/-- C7 witness: a hammer at confidence 80 in the most boosting context
(uptrend, at support, strong candle) on a five-candle window. -/
theorem C7_witness :
    (0 : ℚ) ≤ 80 ∧ (80 : ℚ) ≤ 100 ∧
    (evaluate_pattern c7candles "hammer" 80 c7ctx).1 ≤ 80 :=
  ⟨by norm_num, by norm_num,
   C7_theorem c7candles "hammer" 80 c7ctx (by norm_num) (by norm_num)⟩

/-! ## C5 -/

open TechnicalIndicators in
/-- Rolling means preserve length. -/
theorem length_rollingMeanO (l : OSeries) (p : ℕ) :
    (rollingMeanO l p).length = l.length := by
  simp [rollingMeanO]

open TechnicalIndicators in
/-- Rolling minima preserve length. -/
theorem length_rollingMin (l : Series) (p : ℕ) :
    (rollingMin l p).length = l.length := by
  simp [rollingMin]

open TechnicalIndicators in
/-- Rolling maxima preserve length. -/
theorem length_rollingMax (l : Series) (p : ℕ) :
    (rollingMax l p).length = l.length := by
  simp [rollingMax]

open TechnicalIndicators in
/-- Rolling window application preserves length. -/
theorem length_rollingApply (f : List ℚ → ℚ) (l : Series) (p : ℕ) :
    (rollingApply f l p).length = l.length := by
  simp [rollingApply]

open TechnicalIndicators in
/-- `sma` preserves length. -/
theorem length_sma (data : Series) (p : ℕ) :
    (sma data p).length = data.length := by
  simp [sma, length_rollingMeanO]

open TechnicalIndicators in
/-- The rolling standard deviation preserves length. -/
theorem length_rollingStd (data : Series) (p : ℕ) :
    (rollingStd data p).length = data.length := by
  simp [rollingStd, length_rollingApply]

open TechnicalIndicators in
/-- The EMA recursion preserves length. -/
theorem length_emaGo (a : ℚ) (l : List ℚ) (prev : ℚ) :
    (emaGo a prev l).length = l.length := by
  induction l generalizing prev with
  | nil => rfl
  | cons x xs ih => simp [emaGo, ih]

open TechnicalIndicators in
/-- `ema` preserves length. -/
theorem length_ema (data : Series) (p : ℕ) :
    (ema data p).length = data.length := by
  cases data with
  | nil => rfl
  | cons x xs => simp [ema, length_emaGo]

open TechnicalIndicators in
/-- The RSI smoothing loop preserves length. -/
theorem length_rsiLoop (p : ℕ) (l : List ℚ) (up down : ℚ) :
    (rsiLoop p up down l).length = l.length := by
  induction l generalizing up down with
  | nil => rfl
  | cons d rest ih => simp [rsiLoop, ih]

open TechnicalIndicators in
/-- `rsi` preserves length (for a positive period, as every caller
uses). -/
theorem length_rsi (data : Series) (p : ℕ) (hp : 1 ≤ p) :
    (rsi data p).length = data.length := by
  unfold rsi
  simp only [List.length_append, List.length_replicate, length_rsiLoop,
    List.length_drop, List.length_zipWith]
  omega

open TechnicalIndicators in
/-- All three MACD outputs have the input's length. -/
theorem length_macd (data : Series) (fast slow signal : ℕ) :
    (macd data fast slow signal).1.length = data.length ∧
    (macd data fast slow signal).2.1.length = data.length ∧
    (macd data fast slow signal).2.2.length = data.length := by
  simp [macd, List.length_zipWith, length_ema]

open TechnicalIndicators in
/-- All three Bollinger bands have the input's length. -/
theorem length_bollinger (data : Series) (p : ℕ) (sd : ℚ) :
    (bollinger_bands data p sd).1.length = data.length ∧
    (bollinger_bands data p sd).2.1.length = data.length ∧
    (bollinger_bands data p sd).2.2.length = data.length := by
  simp [bollinger_bands, List.length_zipWith, length_sma, length_rollingStd]

open TechnicalIndicators in
/-- `np.roll` preserves length. -/
theorem length_npRoll1 (l : Series) : (npRoll1 l).length = l.length := by
  unfold npRoll1
  cases h : l.getLast? with
  | none =>
    have : l = [] := by
      cases l with
      | nil => rfl
      | cons x xs => simp at h
    simp [this]
  | some x =>
    have hne : l ≠ [] := by
      intro e
      subst e
      simp at h
    have : 0 < l.length := List.length_pos.mpr hne
    simp [List.length_dropLast]
    omega

open TechnicalIndicators in
/-- The ATR smoothing loop preserves length. -/
theorem length_atrLoop (p : ℕ) (l : List ℚ) (prev : ℚ) :
    (atrLoop p prev l).length = l.length := by
  induction l generalizing prev with
  | nil => rfl
  | cons t rest ih => simp [atrLoop, ih]

open TechnicalIndicators in
/-- On non-empty true-range input the assembly step of `atr` succeeds
with the input's length. -/
theorem atrAssemble_ok (p : ℕ) (t0 t1 : ℚ) (trest rest1 : List ℚ) :
    ∃ out, atrAssemble p (t0 :: trest) (t1 :: rest1) = .ok out ∧
      out.length = trest.length + 1 := by
  refine ⟨_, rfl, ?_⟩
  simp only [List.length_append, List.length_replicate, length_atrLoop,
    List.length_drop, List.length_cons]
  omega

open TechnicalIndicators in
/-- On non-empty equal-length inputs `atr` succeeds and preserves the
length. -/
theorem atr_ok {high low close : Series} {n : ℕ} (hh : high.length = n)
    (hl : low.length = n) (hc : close.length = n) (hn : 0 < n) (p : ℕ) :
    ∃ out, atr high low close p = .ok out ∧ out.length = n := by
  unfold atr
  dsimp only
  have h1 : (List.zipWith (fun h l => h - l) high low).length = n := by
    simp [List.length_zipWith, hh, hl]
  have hro : (npRoll1 close).length = n := by rw [length_npRoll1, hc]
  have h2 : (List.zipWith (fun h c => |h - c|) high (npRoll1 close)).length = n := by
    simp [List.length_zipWith, hh, hro]
  have h3 : (List.zipWith (fun l c => |l - c|) low (npRoll1 close)).length = n := by
    simp [List.length_zipWith, hl, hro]
  have htr : (List.zipWith max (List.zipWith (fun h l => h - l) high low)
      (List.zipWith max (List.zipWith (fun h c => |h - c|) high (npRoll1 close))
        (List.zipWith (fun l c => |l - c|) low (npRoll1 close)))).length = n := by
    simp [List.length_zipWith, h1, h2, h3]
  obtain ⟨t0, trest, he⟩ := List.exists_cons_of_ne_nil
    (by intro e; rw [e] at htr; simp at htr; omega :
      (List.zipWith max (List.zipWith (fun h l => h - l) high low)
        (List.zipWith max (List.zipWith (fun h c => |h - c|) high (npRoll1 close))
          (List.zipWith (fun l c => |l - c|) low (npRoll1 close)))) ≠ [])
  obtain ⟨t1, rest1, he1⟩ := List.exists_cons_of_ne_nil
    (by intro e; rw [e] at h1; simp at h1; omega :
      (List.zipWith (fun h l => h - l) high low) ≠ [])
  rw [he, he1]
  obtain ⟨out, hout, hlen⟩ := atrAssemble_ok p t0 t1 trest rest1
  refine ⟨out, hout, ?_⟩
  have := congrArg List.length he
  simp only [List.length_cons] at this
  omega

open TechnicalIndicators in
/-- Both stochastic outputs have the close vector's length. -/
theorem length_stochastic (high low close : Series) (p sk sd : ℕ) :
    (stochastic high low close p sk sd).1.length = close.length ∧
    (stochastic high low close p sk sd).2.length = close.length := by
  simp [stochastic, length_sma, length_rollingMeanO]

open TechnicalIndicators in
/-- The OBV accumulation loop preserves length. -/
theorem length_obvLoop (l : List (ℚ × ℚ)) (prev prevClose : ℚ) :
    (obvLoop prev prevClose l).length = l.length := by
  induction l generalizing prev prevClose with
  | nil => rfl
  | cons cv rest ih =>
    obtain ⟨c, v⟩ := cv
    simp [obvLoop, ih]

open TechnicalIndicators in
/-- On non-empty equal-length inputs `obv` succeeds and preserves the
length. -/
theorem obv_ok {close volume : Series} {n : ℕ} (hc : close.length = n)
    (hv : volume.length = n) (hn : 0 < n) :
    ∃ out, obv close volume = .ok out ∧ out.length = n := by
  cases close with
  | nil => simp at hc; omega
  | cons c crest =>
    cases volume with
    | nil => simp at hv; omega
    | cons v vrest =>
      refine ⟨_, rfl, ?_⟩
      simp only [List.length_cons, length_obvLoop, List.length_zip]
      simp only [List.length_cons] at hc hv
      omega

open TechnicalIndicators in
/-- `+DM` has the high vector's length when highs and lows agree in
length. -/
theorem length_plusDM {high low : Series} {n : ℕ} (hh : high.length = n)
    (hl : low.length = n) : (plusDM high low).length = n := by
  cases high with
  | nil => simpa using hh
  | cons a as =>
    simp only [plusDM, List.length_cons, List.length_map, List.length_zip,
      List.length_drop]
    simp only [List.length_cons] at hh
    omega

open TechnicalIndicators in
/-- `-DM` has the high vector's length when highs and lows agree in
length. -/
theorem length_minusDM {high low : Series} {n : ℕ} (hh : high.length = n)
    (hl : low.length = n) : (minusDM high low).length = n := by
  cases high with
  | nil => simpa using hh
  | cons a as =>
    simp only [minusDM, List.length_cons, List.length_map, List.length_zip,
      List.length_drop]
    simp only [List.length_cons] at hh
    omega

open TechnicalIndicators in
/-- The pure ADX tail preserves the common length of its inputs. -/
theorem length_adxFrom {pd md av : Series} {n : ℕ} (hp : pd.length = n)
    (hm : md.length = n) (ha : av.length = n) (p : ℕ) :
    (adxFrom pd md av p).length = n := by
  simp [adxFrom, length_rollingMeanO, List.length_zipWith, List.length_map,
    length_sma, hp, hm, ha]

open TechnicalIndicators in
/-- On non-empty equal-length inputs `adx` succeeds and preserves the
length. -/
theorem adx_ok {high low close : Series} {n : ℕ} (hh : high.length = n)
    (hl : low.length = n) (hc : close.length = n) (hn : 0 < n) (p : ℕ) :
    ∃ out, adx high low close p = .ok out ∧ out.length = n := by
  obtain ⟨av, hav, havl⟩ := atr_ok hh hl hc hn p
  refine ⟨adxFrom (plusDM high low) (minusDM high low) av p, ?_, ?_⟩
  · unfold adx
    rw [hav, exceptBind_ok]
  · exact length_adxFrom (length_plusDM hh hl) (length_minusDM hh hl) havl p

open TechnicalIndicators in
/-- `roc` preserves length. -/
theorem length_roc (data : Series) (p : ℕ) :
    (roc data p).length = data.length := by
  simp [roc]

open TechnicalIndicators in
/-- Williams %R has the close vector's length. -/
theorem length_williams (high low close : Series) (p : ℕ) :
    (williams_percent_r high low close p).length = close.length := by
  simp [williams_percent_r]

open TechnicalIndicators in
/-- CCI has the close vector's length. -/
theorem length_cci (high low close : Series) (p : ℕ) :
    (cci high low close p).length = close.length := by
  simp [cci]

open TechnicalIndicators in
/-- C5 (corrected): every indicator primitive returns a vector of the
input's length — for SMA, EMA, RSI, MACD, Bollinger, Stochastic, ROC,
Williams %R and CCI on *every* input vector including the empty one, and
for ATR, OBV and ADX on every *non-empty* input (those three index entry
0 of an intermediate array and raise `IndexError` on the empty vector,
so the claim's "including the empty vector" fails for them). -/
theorem C5_theorem (data high low close volume : Series) (n : ℕ)
    (period fast slow signal smooth_k smooth_d : ℕ) (std_dev : ℚ)
    (hp : 1 ≤ period) (hh : high.length = n) (hl : low.length = n)
    (hc : close.length = n) (hv : volume.length = n) (hn : 0 < n) :
    (sma data period).length = data.length ∧
    (ema data period).length = data.length ∧
    (rsi data period).length = data.length ∧
    ((macd data fast slow signal).1.length = data.length ∧
     (macd data fast slow signal).2.1.length = data.length ∧
     (macd data fast slow signal).2.2.length = data.length) ∧
    ((bollinger_bands data period std_dev).1.length = data.length ∧
     (bollinger_bands data period std_dev).2.1.length = data.length ∧
     (bollinger_bands data period std_dev).2.2.length = data.length) ∧
    (∃ out, atr high low close period = .ok out ∧ out.length = n) ∧
    ((stochastic high low close period smooth_k smooth_d).1.length =
       close.length ∧
     (stochastic high low close period smooth_k smooth_d).2.length =
       close.length) ∧
    (∃ out, obv close volume = .ok out ∧ out.length = n) ∧
    (∃ out, adx high low close period = .ok out ∧ out.length = n) ∧
    (roc data period).length = data.length ∧
    (williams_percent_r high low close period).length = close.length ∧
    (cci high low close period).length = close.length :=
  ⟨length_sma data period, length_ema data period,
   length_rsi data period hp, length_macd data fast slow signal,
   length_bollinger data period std_dev, atr_ok hh hl hc hn period,
   length_stochastic high low close period smooth_k smooth_d,
   obv_ok hc hv hn, adx_ok hh hl hc hn period, length_roc data period,
   length_williams high low close period, length_cci high low close period⟩

open TechnicalIndicators in
/-- C5 witness: concrete two-bar vectors instantiating every conjunct. -/
theorem C5_witness :
    1 ≤ 1 ∧ ([(2 : ℚ), 3].length = 2 ∧ [(1 : ℚ), 1].length = 2 ∧
      [(1 : ℚ), 2].length = 2 ∧ [(5 : ℚ), 6].length = 2 ∧ 0 < 2) ∧
    ((sma [(1 : ℚ), 2] 1).length = [(1 : ℚ), 2].length ∧
     (ema [(1 : ℚ), 2] 1).length = [(1 : ℚ), 2].length ∧
     (rsi [(1 : ℚ), 2] 1).length = [(1 : ℚ), 2].length ∧
     ((macd [(1 : ℚ), 2] 1 2 1).1.length = [(1 : ℚ), 2].length ∧
      (macd [(1 : ℚ), 2] 1 2 1).2.1.length = [(1 : ℚ), 2].length ∧
      (macd [(1 : ℚ), 2] 1 2 1).2.2.length = [(1 : ℚ), 2].length) ∧
     ((bollinger_bands [(1 : ℚ), 2] 1 2).1.length = [(1 : ℚ), 2].length ∧
      (bollinger_bands [(1 : ℚ), 2] 1 2).2.1.length = [(1 : ℚ), 2].length ∧
      (bollinger_bands [(1 : ℚ), 2] 1 2).2.2.length = [(1 : ℚ), 2].length) ∧
     (∃ out, atr [(2 : ℚ), 3] [(1 : ℚ), 1] [(1 : ℚ), 2] 1 = .ok out ∧
       out.length = 2) ∧
     ((stochastic [(2 : ℚ), 3] [(1 : ℚ), 1] [(1 : ℚ), 2] 1 1 1).1.length =
        [(1 : ℚ), 2].length ∧
      (stochastic [(2 : ℚ), 3] [(1 : ℚ), 1] [(1 : ℚ), 2] 1 1 1).2.length =
        [(1 : ℚ), 2].length) ∧
     (∃ out, obv [(1 : ℚ), 2] [(5 : ℚ), 6] = .ok out ∧ out.length = 2) ∧
     (∃ out, adx [(2 : ℚ), 3] [(1 : ℚ), 1] [(1 : ℚ), 2] 1 = .ok out ∧
       out.length = 2) ∧
     (roc [(1 : ℚ), 2] 1).length = [(1 : ℚ), 2].length ∧
     (williams_percent_r [(2 : ℚ), 3] [(1 : ℚ), 1] [(1 : ℚ), 2] 1).length =
       [(1 : ℚ), 2].length ∧
     (cci [(2 : ℚ), 3] [(1 : ℚ), 1] [(1 : ℚ), 2] 1).length =
       [(1 : ℚ), 2].length) :=
  ⟨by decide, ⟨by decide, by decide, by decide, by decide, by decide⟩,
   C5_theorem [(1 : ℚ), 2] [(2 : ℚ), 3] [(1 : ℚ), 1] [(1 : ℚ), 2]
     [(5 : ℚ), 6] 2 1 1 2 1 1 1 2 (by decide) (by decide) (by decide)
     (by decide) (by decide) (by decide)⟩

open TechnicalIndicators in
/-- C5 counterexample: on the empty input vector `atr` does not return a
vector at all — the source's `tr[0] = tr1[0]` raises `IndexError` — so
the claim's "including the empty vector" is false for ATR (and likewise
OBV and ADX). -/
theorem C5_counterexample :
    atr ([] : Series) [] [] 14 =
      .error "index 0 is out of bounds for axis 0 with size 0" ∧
    obv ([] : Series) [] =
      .error "index 0 is out of bounds for axis 0 with size 0" := by
  constructor
  · rfl
  · rfl
